import Mathlib

/-!
Verification of the ticket-inventory booking core of `ticketing-system-go`.

The Go service layer is embedded shallowly: the database is an in-memory
`DBState` (lists of user, event and ticket rows), each service method is a
pure function from a state to an `Except`-result paired with the successor
state, and GORM's transaction semantics is reflected by returning the
original state on every error path of a transactional method.  Machine
integers are modelled as `Int`, `time.Time` as an integer timestamp
(`time.Hour` becomes the constant `hour`), and `float64` prices as `Rat`.
-/

deriving instance DecidableEq for Except

namespace Ticketing

/-- `entity.EventStatus` (`entity/event.go`). -/
inductive EventStatus
  | active
  | ongoing
  | completed
  | cancelled
deriving DecidableEq, Repr

/-- `entity.TicketStatus` (`entity/ticket.go`). -/
inductive TicketStatus
  | active
  | used
  | cancelled
  | expired
deriving DecidableEq, Repr

/-- Capacity-relevant subset of `entity.Event`. -/
structure Event where
  id : String
  capacity : Int
  available : Int
  price : Rat
  eventDate : Int
  status : EventStatus
deriving DecidableEq, Repr

/-- `entity.Ticket` (the fields the booking core reads and writes). -/
structure Ticket where
  id : String
  userID : String
  eventID : String
  quantity : Int
  totalPrice : Rat
  status : TicketStatus
  purchaseDate : Int
deriving DecidableEq, Repr

/-- Subset of `entity.User` consumed by the booking core. -/
structure User where
  id : String
  isActive : Bool
deriving DecidableEq, Repr

/-- The three tables the booking core touches. -/
structure DBState where
  users : List User
  events : List Event
  tickets : List Ticket
deriving DecidableEq, Repr

/-- `entity.BuyTicketRequest`. -/
structure BuyTicketRequest where
  eventID : String
  quantity : Int
deriving DecidableEq, Repr

/-- `time.Hour` as an integer number of seconds. -/
def hour : Int := 3600

/-- `Event.IsAvailable` (`entity/event.go`): `Available > 0 && Status == active`. -/
def Event.IsAvailable (e : Event) : Bool :=
  decide (0 < e.available) && decide (e.status = EventStatus.active)

/-- `Ticket.CanBeCancelled` (`entity/ticket.go`): `Status == active`. -/
def Ticket.CanBeCancelled (t : Ticket) : Bool :=
  decide (t.status = TicketStatus.active)

/-- `userRepository.GetByID`: first row with the given id. -/
def findUser (s : DBState) (uid : String) : Option User :=
  s.users.find? (fun u => decide (u.id = uid))

/-- `eventRepository.GetByID` / the `FOR UPDATE` event read: first row with the id. -/
def findEvent (s : DBState) (eid : String) : Option Event :=
  s.events.find? (fun e => decide (e.id = eid))

/-- `ticketRepository.GetByID`: first row with the given id. -/
def findTicket (s : DBState) (tid : String) : Option Ticket :=
  s.tickets.find? (fun t => decide (t.id = tid))

/-- `eventRepository.UpdateAvailableTickets`: SQL
`UPDATE events SET available = available - ? WHERE id = ?`.  The statement
succeeds whether or not a row matches (GORM reports no error on zero
affected rows), and applies no bound check to the new value. -/
def UpdateAvailableTickets (s : DBState) (eventID : String) (quantity : Int) :
    Except String Unit × DBState :=
  (Except.ok (),
   { s with
     events := s.events.map (fun e =>
       if e.id = eventID then { e with available := e.available - quantity } else e) })

/-- `ticketService.BuyTicket`, transactional variant (`service/ticket_service.go`):
user check, `FOR UPDATE` event read, availability / capacity / start-time
checks, ticket insert and capacity decrement inside one transaction, then a
post-commit re-read of the created ticket.  `now` is the call time and
`newID` the UUID assigned to the inserted ticket.  An error inside the
transaction rolls the state back to `s`. -/
def BuyTicket (now : Int) (newID : String) (s : DBState) (userID : String)
    (req : BuyTicketRequest) : Except String Ticket × DBState :=
  match findUser s userID with
  | none => (Except.error "record not found", s)
  | some user =>
    if user.isActive = false then
      (Except.error "user account is not active", s)
    else
      match findEvent s req.eventID with
      | none => (Except.error "record not found", s)
      | some event =>
        if event.IsAvailable = false then
          (Except.error "event is not available for booking", s)
        else if event.available < req.quantity then
          (Except.error "insufficient tickets available", s)
        else if event.eventDate < now + hour then
          (Except.error "cannot purchase tickets for events starting within an hour", s)
        else
          let ticket : Ticket :=
            { id := newID
              userID := userID
              eventID := req.eventID
              quantity := req.quantity
              totalPrice := event.price * (req.quantity : Rat)
              status := TicketStatus.active
              purchaseDate := now }
          let s' : DBState :=
            { s with
              tickets := s.tickets ++ [ticket]
              events := s.events.map (fun e =>
                if e.id = req.eventID then
                  { e with available := e.available - req.quantity }
                else e) }
          match findTicket s' newID with
          | some t => (Except.ok t, s')
          | none => (Except.error "record not found", s')

/-- `ticketService.CancelTicket`, transactional variant: `FOR UPDATE` ticket
read, ownership / status / event-start-time checks, then the status write and
the capacity increment inside one transaction. -/
def CancelTicket (now : Int) (s : DBState) (ticketID userID : String) :
    Except String Ticket × DBState :=
  match findTicket s ticketID with
  | none => (Except.error "record not found", s)
  | some ticket =>
    if ticket.userID ≠ userID then
      (Except.error "you can only cancel your own tickets", s)
    else if ticket.CanBeCancelled = false then
      (Except.error "ticket cannot be cancelled", s)
    else
      match findEvent s ticket.eventID with
      | none => (Except.error "record not found", s)
      | some event =>
        if event.eventDate < now + 2 * hour then
          (Except.error "cannot cancel tickets within 2 hours of event start", s)
        else
          let cancelled : Ticket := { ticket with status := TicketStatus.cancelled }
          (Except.ok cancelled,
           { s with
             tickets := s.tickets.map (fun t => if t.id = ticketID then cancelled else t)
             events := s.events.map (fun e =>
               if e.id = ticket.eventID then
                 { e with available := e.available + ticket.quantity }
               else e) })

/-- `ticketService.UpdateTicketStatus`: rejects any update of a `cancelled`
ticket and rejects marking a non-`active` ticket `used`; every other request
saves the ticket with the requested status. -/
def UpdateTicketStatus (s : DBState) (ticketID : String) (newStatus : TicketStatus) :
    Except String Ticket × DBState :=
  match findTicket s ticketID with
  | none => (Except.error "record not found", s)
  | some ticket =>
    if ticket.status = TicketStatus.cancelled then
      (Except.error "cannot update cancelled ticket", s)
    else if newStatus = TicketStatus.used ∧ ticket.status ≠ TicketStatus.active then
      (Except.error "can only mark active tickets as used", s)
    else
      let updated : Ticket := { ticket with status := newStatus }
      (Except.ok updated,
       { s with tickets := s.tickets.map (fun t => if t.id = ticketID then updated else t) })

/-- `ticketRepository.Delete`: removes the ticket row with the given id. -/
def deleteTicket (s : DBState) (tid : String) : DBState :=
  { s with tickets := s.tickets.filter (fun t => decide (t.id ≠ tid)) }

/-- Storage-failure injection for the mutating repository calls of the
unlocked (non-transactional) `BuyTicket` variant: a set flag makes the
corresponding SQL statement fail, leaving the store unchanged. -/
structure Faults where
  createFails : Bool
  updateAvailableFails : Bool
  deleteFails : Bool
deriving DecidableEq, Repr

/-- All repository calls succeed. -/
def noFaults : Faults := ⟨false, false, false⟩

/-- `ticketService.BuyTicket`, unlocked variant: the user and event rows are
read without any lock, so the validated snapshot `snap` may be older than the
state `s` the mutations are applied to (a single call with no concurrent
writer has `snap = s`).  On a failing capacity update the code calls
`ticketRepo.Delete(ticket.ID)` as compensation and discards that call's
error. -/
def BuyTicketUnlocked (f : Faults) (now : Int) (newID : String)
    (snap s : DBState) (userID : String) (req : BuyTicketRequest) :
    Except String Ticket × DBState :=
  match findUser snap userID with
  | none => (Except.error "record not found", s)
  | some user =>
    if user.isActive = false then
      (Except.error "user account is not active", s)
    else
      match findEvent snap req.eventID with
      | none => (Except.error "record not found", s)
      | some event =>
        if event.IsAvailable = false then
          (Except.error "event is not available for booking", s)
        else if event.available < req.quantity then
          (Except.error "insufficient tickets available", s)
        else if event.eventDate < now + hour then
          (Except.error "cannot purchase tickets for events starting within an hour", s)
        else
          let ticket : Ticket :=
            { id := newID
              userID := userID
              eventID := req.eventID
              quantity := req.quantity
              totalPrice := event.price * (req.quantity : Rat)
              status := TicketStatus.active
              purchaseDate := now }
          if f.createFails then
            (Except.error "create failed", s)
          else
            let s1 : DBState := { s with tickets := s.tickets ++ [ticket] }
            if f.updateAvailableFails then
              (Except.error "update available failed",
               if f.deleteFails then s1 else deleteTicket s1 newID)
            else
              let s2 := (UpdateAvailableTickets s1 req.eventID req.quantity).2
              match findTicket s2 newID with
              | some t => (Except.ok t, s2)
              | none => (Except.error "record not found", s2)

/-- Contribution of one ticket row to the capacity ledger of event `eid`:
its quantity when it is an `active` or `used` ticket of that event. -/
def heldContrib (eid : String) (t : Ticket) : Int :=
  if t.eventID = eid ∧ (t.status = TicketStatus.active ∨ t.status = TicketStatus.used) then
    t.quantity
  else 0

/-- `Σ(quantity of tickets of event eid with status ∈ {active, used})`. -/
def heldQty (tickets : List Ticket) (eid : String) : Int :=
  (tickets.map (heldContrib eid)).sum

/-- The global capacity-conservation invariant of the spec: for every event
row, `available + Σ(quantity of its active/used tickets) = capacity`. -/
def capacityInvariant (s : DBState) : Prop :=
  ∀ e ∈ s.events, e.available + heldQty s.tickets e.id = e.capacity

/-- Ticket ids are unique (the `tickets` primary key). -/
def ticketIDsNodup (s : DBState) : Prop :=
  (s.tickets.map Ticket.id).Nodup

instance (s : DBState) : Decidable (capacityInvariant s) :=
  inferInstanceAs (Decidable (∀ e ∈ s.events, e.available + heldQty s.tickets e.id = e.capacity))

instance (s : DBState) : Decidable (ticketIDsNodup s) :=
  inferInstanceAs (Decidable (s.tickets.map Ticket.id).Nodup)

/-- Serial execution of a batch of `BuyTicket` calls: each element carries the
ticket id the database will assign, the calling user and the request.  Returns
the final state together with the total quantity of the successful
purchases. -/
def runBuys (now : Int) : DBState → List (String × String × BuyTicketRequest) → DBState × Int
  | s, [] => (s, 0)
  | s, c :: rest =>
    let r := BuyTicket now c.1 s c.2.1 c.2.2
    let next := runBuys now r.2 rest
    (next.1, (match r.1 with | Except.ok _ => c.2.2.quantity | Except.error _ => 0) + next.2)

/-! ## Concrete rows used by witnesses and counterexamples -/

/-- Sample active user `u1`. -/
def sampleUser : User := ⟨"u1", true⟩

/-- Sample deactivated user `u9`. -/
def inactiveUser : User := ⟨"u9", false⟩

/-- Sample active event: capacity 10, all 10 available, price 50, far-future
date. -/
def sampleEvent : Event := ⟨"e1", 10, 10, 50, 100000, EventStatus.active⟩

/-- State holding the sample user and event and an empty ticket ledger. -/
def sampleState : DBState := ⟨[sampleUser], [sampleEvent], []⟩

/-- State that also holds the deactivated user. -/
def inactiveState : DBState := ⟨[sampleUser, inactiveUser], [sampleEvent], []⟩

/-- Sold-out event: capacity 1, available 0. -/
def fullEvent : Event := ⟨"e2", 1, 0, 50, 100000, EventStatus.active⟩

/-- The `active` ticket holding `fullEvent`'s single unit. -/
def soldTicket : Ticket := ⟨"t2", "u1", "e2", 1, 50, TicketStatus.active, 0⟩

/-- State in which `fullEvent`'s capacity is fully held by `soldTicket`. -/
def soldOutState : DBState := ⟨[sampleUser], [fullEvent], [soldTicket]⟩

/-- A `used` ticket of the sample event. -/
def usedTicket : Ticket := ⟨"t7", "u1", "e1", 1, 50, TicketStatus.used, 0⟩

/-- State holding the used ticket. -/
def usedTicketState : DBState := ⟨[sampleUser], [sampleEvent], [usedTicket]⟩

/-- An already-`cancelled` ticket of the sample event. -/
def cancelledTicket : Ticket := ⟨"t8", "u1", "e1", 2, 100, TicketStatus.cancelled, 0⟩

/-- State holding the cancelled ticket. -/
def cancelledTicketState : DBState := ⟨[sampleUser], [sampleEvent], [cancelledTicket]⟩

/-- An `expired` ticket of the sample event. -/
def expiredTicket : Ticket := ⟨"t9", "u1", "e1", 3, 150, TicketStatus.expired, 0⟩

/-- State holding the expired ticket. -/
def expiredTicketState : DBState := ⟨[sampleUser], [sampleEvent], [expiredTicket]⟩

/-- An `active` ticket of the sample event owned by `u1`. -/
def activeTicket : Ticket := ⟨"t4", "u1", "e1", 2, 100, TicketStatus.active, 0⟩

/-- State holding the active ticket. -/
def activeTicketState : DBState := ⟨[sampleUser], [sampleEvent], [activeTicket]⟩

/-! ## Generic lemmas about the row operations -/

/-- A lookup by id commutes with a row-map that preserves ids. -/
theorem find?_map_id_preserved {α : Type} (l : List α) (f : α → α) (idOf : α → String)
    (hf : ∀ x, idOf (f x) = idOf x) (key : String) :
    (l.map f).find? (fun x => decide (idOf x = key)) =
      (l.find? (fun x => decide (idOf x = key))).map f := by
  rw [List.find?_map]
  have hfun : ((fun x => decide (idOf x = key)) ∘ f) = (fun x => decide (idOf x = key)) := by
    funext x
    simp [Function.comp, hf]
  rw [hfun]

theorem findEvent_after_adjust (l : List Event) (eid key : String) (q : Int)
    (f : Event → Event) (hf : ∀ e, f e = if e.id = eid then { e with available := e.available + q } else e) :
    (l.map f).find? (fun e => decide (e.id = key)) =
      (l.find? (fun e => decide (e.id = key))).map f := by
  refine find?_map_id_preserved l f Event.id (fun e => ?_) key
  rw [hf]
  by_cases h : e.id = eid <;> simp [h]

theorem heldQty_nil (eid : String) : heldQty [] eid = 0 := rfl

theorem heldQty_cons (t : Ticket) (l : List Ticket) (eid : String) :
    heldQty (t :: l) eid = heldContrib eid t + heldQty l eid := by
  simp [heldQty]

theorem heldQty_append_single (l : List Ticket) (t : Ticket) (eid : String) :
    heldQty (l ++ [t]) eid = heldQty l eid + heldContrib eid t := by
  simp [heldQty]

/-- Rewriting every row with an id-keyed update map leaves the ledger sum
alone when the contribution of every row is unchanged. -/
theorem heldQty_map_of_contrib_eq (l : List Ticket) (g : Ticket → Ticket) (eid : String)
    (h : ∀ t ∈ l, heldContrib eid (g t) = heldContrib eid t) :
    heldQty (l.map g) eid = heldQty l eid := by
  unfold heldQty
  rw [List.map_map]
  congr 1
  exact List.map_congr_left (fun t ht => h t ht)

/-- An id-keyed row replacement leaves rows with other ids alone. -/
theorem map_update_of_no_match (l : List Ticket) (tid : String) (upd : Ticket)
    (h : ∀ t ∈ l, t.id ≠ tid) :
    l.map (fun t => if t.id = tid then upd else t) = l := by
  have : ∀ t ∈ l, (fun t => if t.id = tid then upd else t) t = id t := by
    intro t ht
    simp [h t ht]
  rw [List.map_congr_left this, List.map_id]

/-- Effect of the SQL `UPDATE tickets ... WHERE id = ?` row replacement on the
ledger sum, when ids are unique and the replaced row is `t0`. -/
theorem heldQty_map_update (l : List Ticket) (tid : String) (upd : Ticket) (eid : String)
    (hnd : (l.map Ticket.id).Nodup) (t0 : Ticket) (h0 : t0 ∈ l) (hid : t0.id = tid) :
    heldQty (l.map (fun t => if t.id = tid then upd else t)) eid =
      heldQty l eid - heldContrib eid t0 + heldContrib eid upd := by
  induction l with
  | nil => cases h0
  | cons a l ih =>
    rw [List.map_cons, List.nodup_cons] at hnd
    obtain ⟨hna, hndl⟩ := hnd
    by_cases ha : a.id = tid
    · have ht0 : t0 = a := by
        rcases List.mem_cons.mp h0 with h | h
        · exact h
        · exfalso
          apply hna
          have hm : t0.id ∈ l.map Ticket.id := List.mem_map_of_mem Ticket.id h
          rw [hid, ← ha] at hm
          exact hm
      have hrest : ∀ t ∈ l, t.id ≠ tid := by
        intro t ht hc
        apply hna
        have hm : t.id ∈ l.map Ticket.id := List.mem_map_of_mem Ticket.id ht
        rw [hc, ← ha] at hm
        exact hm
      rw [List.map_cons, if_pos ha, map_update_of_no_match l tid upd hrest,
        heldQty_cons, heldQty_cons, ht0]
      ring
    · have ht0 : t0 ∈ l := by
        rcases List.mem_cons.mp h0 with h | h
        · exact absurd (h ▸ hid) ha
        · exact h
      rw [List.map_cons, if_neg ha, heldQty_cons, heldQty_cons, ih hndl ht0]
      ring

theorem findTicket_mem {s : DBState} {tid : String} {t : Ticket}
    (h : findTicket s tid = some t) : t ∈ s.tickets :=
  List.mem_of_find?_eq_some h

theorem findTicket_id {s : DBState} {tid : String} {t : Ticket}
    (h : findTicket s tid = some t) : t.id = tid := by
  have := List.find?_some h
  simpa using this

theorem findEvent_id {s : DBState} {eid : String} {e : Event}
    (h : findEvent s eid = some e) : e.id = eid := by
  have := List.find?_some h
  simpa using this

/-! ## Characterizations of the service operations -/

/-- Success characterization of the transactional `BuyTicket`: when every
precondition of the purchase holds and the assigned ticket id is fresh, the
call returns the created `active` ticket priced at `event.price * quantity`
and commits the insert together with the capacity decrement. -/
theorem buyTicket_ok_eq (now : Int) (newID : String) (s : DBState) (uid : String)
    (req : BuyTicketRequest) (u : User) (e : Event)
    (hu : findUser s uid = some u) (hua : u.isActive = true)
    (he : findEvent s req.eventID = some e) (hea : e.IsAvailable = true)
    (hq : req.quantity ≤ e.available) (hd : now + hour ≤ e.eventDate)
    (hfresh : findTicket s newID = none) :
    BuyTicket now newID s uid req =
      (Except.ok
        { id := newID, userID := uid, eventID := req.eventID,
          quantity := req.quantity,
          totalPrice := e.price * (req.quantity : Rat),
          status := TicketStatus.active, purchaseDate := now },
       { s with
         tickets := s.tickets ++
           [{ id := newID, userID := uid, eventID := req.eventID,
              quantity := req.quantity,
              totalPrice := e.price * (req.quantity : Rat),
              status := TicketStatus.active, purchaseDate := now }],
         events := s.events.map (fun e' =>
           if e'.id = req.eventID then { e' with available := e'.available - req.quantity }
           else e') }) := by
  have hre : findTicket
      { s with
        tickets := s.tickets ++
          [{ id := newID, userID := uid, eventID := req.eventID,
             quantity := req.quantity,
             totalPrice := e.price * (req.quantity : Rat),
             status := TicketStatus.active, purchaseDate := now }],
        events := s.events.map (fun e' =>
          if e'.id = req.eventID then { e' with available := e'.available - req.quantity }
          else e') } newID =
      some { id := newID, userID := uid, eventID := req.eventID,
             quantity := req.quantity,
             totalPrice := e.price * (req.quantity : Rat),
             status := TicketStatus.active, purchaseDate := now } := by
    unfold findTicket at hfresh ⊢
    simp only at hfresh ⊢
    rw [List.find?_append, hfresh]
    simp
  unfold BuyTicket
  rw [hu, he]
  simp only [hua, hea, Bool.true_eq_false, if_false,
    if_neg (not_lt.mpr hq), if_neg (not_lt.mpr hd)]
  rw [hre]

theorem find?_append_singleton_isSome (l : List Ticket) (t : Ticket) (key : String)
    (hk : t.id = key) : ((l ++ [t]).find? (fun x => decide (x.id = key))).isSome := by
  rw [List.find?_isSome]
  exact ⟨t, by simp, by simp [hk]⟩

/-- Every error outcome of the transactional `BuyTicket` rolls the state back:
the returned state is the caller's state. -/
theorem buyTicket_error_frame (now : Int) (newID : String) (s : DBState) (uid : String)
    (req : BuyTicketRequest) (err : String)
    (h : (BuyTicket now newID s uid req).1 = Except.error err) :
    (BuyTicket now newID s uid req).2 = s := by
  unfold BuyTicket at h ⊢
  rcases hu : findUser s uid with _ | u
  · simp only [hu]
  · simp only [hu] at h ⊢
    by_cases ha : u.isActive = false
    · simp only [if_pos ha]
    · simp only [if_neg ha] at h ⊢
      rcases he : findEvent s req.eventID with _ | e
      · simp only [he]
      · simp only [he] at h ⊢
        by_cases hav : e.IsAvailable = false
        · simp only [if_pos hav]
        · simp only [if_neg hav] at h ⊢
          by_cases hq : e.available < req.quantity
          · simp only [if_pos hq]
          · simp only [if_neg hq] at h ⊢
            by_cases hd : e.eventDate < now + hour
            · simp only [if_pos hd]
            · simp only [if_neg hd] at h ⊢
              rcases hf : findTicket
                  { s with
                    tickets := s.tickets ++
                      [{ id := newID, userID := uid, eventID := req.eventID,
                         quantity := req.quantity,
                         totalPrice := e.price * (req.quantity : Rat),
                         status := TicketStatus.active, purchaseDate := now }],
                    events := s.events.map (fun e' =>
                      if e'.id = req.eventID then
                        { e' with available := e'.available - req.quantity }
                      else e') } newID with _ | t
              · exfalso
                have hs : ((s.tickets ++
                    [({ id := newID, userID := uid, eventID := req.eventID,
                        quantity := req.quantity,
                        totalPrice := e.price * (req.quantity : Rat),
                        status := TicketStatus.active, purchaseDate := now } : Ticket)]).find?
                      (fun x => decide (x.id = newID))).isSome :=
                  find?_append_singleton_isSome _ _ _ rfl
                unfold findTicket at hf
                simp only at hf
                rw [hf] at hs
                simp at hs
              · simp only [hf] at h
                simp at h

/-- Success characterization of the transactional `CancelTicket`: with the
ticket owned by the caller, still `active`, and the event more than two hours
away, the call commits the status write together with the capacity
increment. -/
theorem cancelTicket_ok_eq (now : Int) (s : DBState) (tid uid : String) (t : Ticket) (e : Event)
    (ht : findTicket s tid = some t) (hown : t.userID = uid)
    (hst : t.status = TicketStatus.active)
    (he : findEvent s t.eventID = some e) (hd : now + 2 * hour ≤ e.eventDate) :
    CancelTicket now s tid uid =
      (Except.ok { t with status := TicketStatus.cancelled },
       { s with
         tickets := s.tickets.map (fun x =>
           if x.id = tid then { t with status := TicketStatus.cancelled } else x),
         events := s.events.map (fun e' =>
           if e'.id = t.eventID then { e' with available := e'.available + t.quantity }
           else e') }) := by
  unfold CancelTicket
  rw [ht]
  simp only [hown, ne_eq, not_true_eq_false, if_false, Ticket.CanBeCancelled, hst,
    decide_True, Bool.true_eq_false, he, if_neg (not_lt.mpr hd)]

/-- The four rejection branches of `CancelTicket`, each with its exact error
and an unchanged state: missing ticket, foreign owner (checked before the
status), non-`active` status, and the two-hour cutoff. -/
theorem cancelTicket_reject_cases (now : Int) (s : DBState) (tid uid : String) :
    (findTicket s tid = none →
      CancelTicket now s tid uid = (Except.error "record not found", s)) ∧
    (∀ t, findTicket s tid = some t → t.userID ≠ uid →
      CancelTicket now s tid uid = (Except.error "you can only cancel your own tickets", s)) ∧
    (∀ t, findTicket s tid = some t → t.userID = uid → t.status ≠ TicketStatus.active →
      CancelTicket now s tid uid = (Except.error "ticket cannot be cancelled", s)) ∧
    (∀ t e, findTicket s tid = some t → t.userID = uid → t.status = TicketStatus.active →
      findEvent s t.eventID = some e → e.eventDate < now + 2 * hour →
      CancelTicket now s tid uid =
        (Except.error "cannot cancel tickets within 2 hours of event start", s)) := by
  refine ⟨?_, ?_, ?_, ?_⟩
  · intro h
    unfold CancelTicket
    rw [h]
  · intro t ht hown
    unfold CancelTicket
    rw [ht]
    simp only [if_pos hown]
  · intro t ht hown hst
    unfold CancelTicket
    rw [ht]
    simp only [hown, ne_eq, not_true_eq_false, if_false, Ticket.CanBeCancelled]
    rw [if_pos (by simpa using hst)]
  · intro t e ht hown hst he hd
    unfold CancelTicket
    rw [ht]
    simp only [hown, ne_eq, not_true_eq_false, if_false, Ticket.CanBeCancelled, hst,
      decide_True, Bool.true_eq_false, he, if_pos hd]

/-- Every error outcome of the transactional `CancelTicket` leaves the state
unchanged. -/
theorem cancelTicket_error_frame (now : Int) (s : DBState) (tid uid : String) (err : String)
    (h : (CancelTicket now s tid uid).1 = Except.error err) :
    (CancelTicket now s tid uid).2 = s := by
  unfold CancelTicket at h ⊢
  rcases ht : findTicket s tid with _ | t
  · simp only [ht]
  · simp only [ht] at h ⊢
    by_cases hown : t.userID ≠ uid
    · simp only [if_pos hown]
    · simp only [if_neg hown] at h ⊢
      by_cases hc : t.CanBeCancelled = false
      · simp only [if_pos hc]
      · simp only [if_neg hc] at h ⊢
        rcases he : findEvent s t.eventID with _ | e
        · simp only [he]
        · simp only [he] at h ⊢
          by_cases hd : e.eventDate < now + 2 * hour
          · simp only [if_pos hd]
          · simp only [if_neg hd] at h
            simp at h

/-- Case analysis of `UpdateTicketStatus`: the two rejection branches of the
code, and the save branch that succeeds for every other request. -/
theorem updateTicketStatus_cases (s : DBState) (tid : String) (st : TicketStatus) :
    (findTicket s tid = none →
      UpdateTicketStatus s tid st = (Except.error "record not found", s)) ∧
    (∀ t, findTicket s tid = some t → t.status = TicketStatus.cancelled →
      UpdateTicketStatus s tid st = (Except.error "cannot update cancelled ticket", s)) ∧
    (∀ t, findTicket s tid = some t → t.status ≠ TicketStatus.cancelled →
      st = TicketStatus.used → t.status ≠ TicketStatus.active →
      UpdateTicketStatus s tid st = (Except.error "can only mark active tickets as used", s)) ∧
    (∀ t, findTicket s tid = some t → t.status ≠ TicketStatus.cancelled →
      (st = TicketStatus.used → t.status = TicketStatus.active) →
      UpdateTicketStatus s tid st =
        (Except.ok { t with status := st },
         { s with tickets := s.tickets.map (fun x =>
             if x.id = tid then { t with status := st } else x) })) := by
  refine ⟨?_, ?_, ?_, ?_⟩
  · intro h
    unfold UpdateTicketStatus
    rw [h]
  · intro t ht hc
    unfold UpdateTicketStatus
    rw [ht]
    simp only [if_pos hc]
  · intro t ht hc hst hna
    unfold UpdateTicketStatus
    rw [ht]
    simp only [if_neg hc]
    rw [if_pos ⟨hst, hna⟩]
  · intro t ht hc hok
    unfold UpdateTicketStatus
    rw [ht]
    simp only [if_neg hc]
    rw [if_neg ?_]
    rintro ⟨h1, h2⟩
    exact h2 (hok h1)

/-- Lookup in a state whose events are a row-mapped list. -/
theorem findEvent_map_f (us : List User) (evs : List Event) (tks : List Ticket)
    (f : Event → Event) (hf : ∀ e, (f e).id = e.id) (key : String) :
    findEvent ⟨us, evs.map f, tks⟩ key = (evs.find? (fun e => decide (e.id = key))).map f :=
  find?_map_id_preserved evs f Event.id hf key

/-- Appending a row with a fresh id makes it the lookup result for that id. -/
theorem find?_append_fresh (l : List Ticket) (tk : Ticket) (key : String)
    (hfr : l.find? (fun t => decide (t.id = key)) = none) (hk : tk.id = key) :
    (l ++ [tk]).find? (fun t => decide (t.id = key)) = some tk := by
  rw [List.find?_append, hfr]
  simp [hk]

/-- Per-call effect of a transactional purchase on its event row: a failure
leaves the state unchanged, and a success implies the capacity check
`quantity ≤ available` held and decrements the row by exactly the
quantity. -/
theorem buyTicket_avail_step (now : Int) (newID : String) (s : DBState) (uid : String)
    (req : BuyTicketRequest) (e : Event) (he : findEvent s req.eventID = some e) :
    (∀ err, (BuyTicket now newID s uid req).1 = Except.error err →
      (BuyTicket now newID s uid req).2 = s) ∧
    (∀ t, (BuyTicket now newID s uid req).1 = Except.ok t →
      req.quantity ≤ e.available ∧
      findEvent (BuyTicket now newID s uid req).2 req.eventID =
        some { e with available := e.available - req.quantity }) := by
  constructor
  · exact fun err h => buyTicket_error_frame now newID s uid req err h
  · intro t hok
    unfold BuyTicket at hok ⊢
    rcases hu : findUser s uid with _ | u
    · simp only [hu] at hok
      simp at hok
    · simp only [hu] at hok ⊢
      by_cases ha : u.isActive = false
      · simp only [if_pos ha] at hok
        simp at hok
      · simp only [if_neg ha] at hok ⊢
        rw [he] at hok ⊢
        by_cases hav : e.IsAvailable = false
        · simp only [if_pos hav] at hok
          simp at hok
        · simp only [if_neg hav] at hok ⊢
          by_cases hq : e.available < req.quantity
          · simp only [if_pos hq] at hok
            simp at hok
          · simp only [if_neg hq] at hok ⊢
            by_cases hd : e.eventDate < now + hour
            · simp only [if_pos hd] at hok
              simp at hok
            · simp only [if_neg hd] at hok ⊢
              refine ⟨by omega, ?_⟩
              split <;>
              · rw [findEvent_map_f s.users s.events _ _
                  (fun x => by by_cases hx : x.id = req.eventID <;> simp [hx]) req.eventID]
                rw [show s.events.find? (fun x => decide (x.id = req.eventID)) = some e from he,
                  Option.map_some', if_pos (findEvent_id he)]

/-- The committed purchase state keeps the capacity ledger balanced: the new
`active` ticket adds exactly the quantity that the decrement removed from its
event's `available`, and other events are untouched. -/
theorem buy_commit_invariant (s : DBState) (newID uid : String) (req : BuyTicketRequest)
    (now : Int) (price : Rat) (hinv : capacityInvariant s) :
    capacityInvariant
      { s with
        tickets := s.tickets ++
          [{ id := newID, userID := uid, eventID := req.eventID, quantity := req.quantity,
             totalPrice := price, status := TicketStatus.active, purchaseDate := now }],
        events := s.events.map (fun e =>
          if e.id = req.eventID then { e with available := e.available - req.quantity }
          else e) } := by
  intro e' he'
  obtain ⟨e0, he0, rfl⟩ := List.mem_map.mp he'
  have hbase := hinv e0 he0
  by_cases h0 : e0.id = req.eventID
  · simp only [if_pos h0, heldQty_append_single]
    rw [show heldContrib e0.id
        ({ id := newID, userID := uid, eventID := req.eventID, quantity := req.quantity,
           totalPrice := price, status := TicketStatus.active, purchaseDate := now } : Ticket) =
        req.quantity from by
      unfold heldContrib
      rw [if_pos ⟨h0.symm, Or.inl rfl⟩]]
    omega
  · simp only [if_neg h0, heldQty_append_single]
    rw [show heldContrib e0.id
        ({ id := newID, userID := uid, eventID := req.eventID, quantity := req.quantity,
           totalPrice := price, status := TicketStatus.active, purchaseDate := now } : Ticket) =
        0 from by
      unfold heldContrib
      rw [if_neg (fun hc => h0 hc.1.symm)]]
    omega

/-- The committed cancellation state keeps the ledger balanced: the ticket's
quantity leaves the active/used sum exactly as `available` regains it. -/
theorem cancel_commit_invariant (s : DBState) (tid : String) (t : Ticket)
    (hnd : ticketIDsNodup s) (hinv : capacityInvariant s)
    (ht : findTicket s tid = some t) (hst : t.status = TicketStatus.active) :
    capacityInvariant
      { s with
        tickets := s.tickets.map (fun x =>
          if x.id = tid then { t with status := TicketStatus.cancelled } else x),
        events := s.events.map (fun e =>
          if e.id = t.eventID then { e with available := e.available + t.quantity }
          else e) } := by
  intro e' he'
  obtain ⟨e0, he0, rfl⟩ := List.mem_map.mp he'
  have hbase := hinv e0 he0
  have hheld := heldQty_map_update s.tickets tid { t with status := TicketStatus.cancelled }
  have hupd : ∀ key, heldContrib key ({ t with status := TicketStatus.cancelled } : Ticket) = 0 := by
    intro key
    unfold heldContrib
    rw [if_neg (fun hc => by rcases hc.2 with h | h <;> cases h)]
  by_cases h0 : e0.id = t.eventID
  · simp only [if_pos h0]
    rw [hheld e0.id hnd t (findTicket_mem ht) (findTicket_id ht), hupd,
      show heldContrib e0.id t = t.quantity from by
        unfold heldContrib
        rw [if_pos ⟨h0.symm, Or.inl hst⟩]]
    omega
  · simp only [if_neg h0]
    rw [hheld e0.id hnd t (findTicket_mem ht) (findTicket_id ht), hupd,
      show heldContrib e0.id t = 0 from by
        unfold heldContrib
        rw [if_neg (fun hc => h0 hc.1.symm)]]
    omega

/-- Saving an `active` ticket as `used` keeps the ledger balanced: the row
keeps contributing its quantity and no event row changes. -/
theorem update_used_commit_invariant (s : DBState) (tid : String) (t : Ticket)
    (hnd : ticketIDsNodup s) (hinv : capacityInvariant s)
    (ht : findTicket s tid = some t) (hst : t.status = TicketStatus.active) :
    capacityInvariant
      { s with
        tickets := s.tickets.map (fun x =>
          if x.id = tid then { t with status := TicketStatus.used } else x) } := by
  intro e' he'
  have hbase := hinv e' he'
  have hcontrib : heldContrib e'.id ({ t with status := TicketStatus.used } : Ticket) =
      heldContrib e'.id t := by
    unfold heldContrib
    by_cases hc : t.eventID = e'.id <;> simp [hc, hst]
  show e'.available + heldQty (s.tickets.map (fun x =>
      if x.id = tid then { t with status := TicketStatus.used } else x)) e'.id = e'.capacity
  rw [heldQty_map_update s.tickets tid { t with status := TicketStatus.used } e'.id hnd t
    (findTicket_mem ht) (findTicket_id ht), hcontrib]
  omega

/-- `BuyTicket` preserves the capacity-conservation invariant on every path:
failures roll back, and the committed purchase is balanced. -/
theorem buy_preserves_invariant (now : Int) (newID : String) (s : DBState) (uid : String)
    (req : BuyTicketRequest) (hinv : capacityInvariant s) :
    capacityInvariant (BuyTicket now newID s uid req).2 := by
  unfold BuyTicket
  rcases hu : findUser s uid with _ | u
  · simp only [hu]
    exact hinv
  · simp only [hu]
    by_cases ha : u.isActive = false
    · simp only [if_pos ha]
      exact hinv
    · simp only [if_neg ha]
      rcases he : findEvent s req.eventID with _ | e
      · simp only [he]
        exact hinv
      · simp only [he]
        by_cases hav : e.IsAvailable = false
        · simp only [if_pos hav]
          exact hinv
        · simp only [if_neg hav]
          by_cases hq : e.available < req.quantity
          · simp only [if_pos hq]
            exact hinv
          · simp only [if_neg hq]
            by_cases hd : e.eventDate < now + hour
            · simp only [if_pos hd]
              exact hinv
            · simp only [if_neg hd]
              have hs' := buy_commit_invariant s newID uid req now
                (e.price * (req.quantity : Rat)) hinv
              split <;> exact hs'

/-- `CancelTicket` preserves the capacity-conservation invariant on every
path (ticket ids unique, as the primary key guarantees). -/
theorem cancel_preserves_invariant (now : Int) (s : DBState) (tid uid : String)
    (hnd : ticketIDsNodup s) (hinv : capacityInvariant s) :
    capacityInvariant (CancelTicket now s tid uid).2 := by
  unfold CancelTicket
  rcases ht : findTicket s tid with _ | t
  · simp only [ht]
    exact hinv
  · simp only [ht]
    by_cases hown : t.userID ≠ uid
    · simp only [if_pos hown]
      exact hinv
    · simp only [if_neg hown]
      by_cases hc : t.CanBeCancelled = false
      · simp only [if_pos hc]
        exact hinv
      · simp only [if_neg hc]
        have hst : t.status = TicketStatus.active := by
          have := eq_true_of_ne_false hc
          simpa [Ticket.CanBeCancelled] using this
        rcases he : findEvent s t.eventID with _ | e
        · simp only [he]
          exact hinv
        · simp only [he]
          by_cases hd : e.eventDate < now + 2 * hour
          · simp only [if_pos hd]
            exact hinv
          · simp only [if_neg hd]
            exact cancel_commit_invariant s tid t hnd hinv ht hst

/-- `UpdateTicketStatus` with requested status `used` preserves the
capacity-conservation invariant on every path. -/
theorem update_used_preserves_invariant (s : DBState) (tid : String)
    (hnd : ticketIDsNodup s) (hinv : capacityInvariant s) :
    capacityInvariant (UpdateTicketStatus s tid TicketStatus.used).2 := by
  unfold UpdateTicketStatus
  rcases ht : findTicket s tid with _ | t
  · simp only [ht]
    exact hinv
  · simp only [ht]
    by_cases h1 : t.status = TicketStatus.cancelled
    · simp only [if_pos h1]
      exact hinv
    · simp only [if_neg h1]
      by_cases h2 : t.status = TicketStatus.active
      · rw [if_neg (fun hc => hc.2 h2)]
        exact update_used_commit_invariant s tid t hnd hinv ht h2
      · rw [if_pos ⟨trivial, h2⟩]
        exact hinv

/-! ## Claim theorems -/

/-- C9: frame property of the status-update path.  For every call to
`UpdateTicketStatus`, successful or failing, the `events` table — and with it
the `available` field of every event — is identical before and after the
call: this path never mutates capacity state. -/
theorem C9_update_status_frame (s : DBState) (tid : String) (st : TicketStatus) :
    ((UpdateTicketStatus s tid st).2).events = s.events := by
  unfold UpdateTicketStatus
  rcases ht : findTicket s tid with _ | t
  · simp only [ht]
  · simp only [ht]
    by_cases h1 : t.status = TicketStatus.cancelled
    · simp only [if_pos h1]
    · simp only [if_neg h1]
      by_cases h2 : st = TicketStatus.used ∧ t.status ≠ TicketStatus.active
      · simp only [if_pos h2]
      · simp only [if_neg h2]

/-- C10: `eventRepository.UpdateAvailableTickets` is an unconditional
`available := available - quantity` on the matching row: it always reports
success, leaves the state unchanged when no event matches the id (so callers
get no not-found signal), and applies the decrement with no `0 ≤ available`
or `available ≤ capacity` bound check. -/
theorem C10_update_available_unconditional (s : DBState) (eid : String) (q : Int) :
    (UpdateAvailableTickets s eid q).1 = Except.ok () ∧
    ((∀ e ∈ s.events, e.id ≠ eid) → (UpdateAvailableTickets s eid q).2 = s) ∧
    (∀ e, findEvent s eid = some e →
      findEvent (UpdateAvailableTickets s eid q).2 eid =
        some { e with available := e.available - q }) := by
  refine ⟨rfl, ?_, ?_⟩
  · intro h
    have h' : ∀ e ∈ s.events,
        (fun e => if e.id = eid then { e with available := e.available - q } else e) e = id e := by
      intro e he
      simp [h e he]
    have hmap : s.events.map
        (fun e => if e.id = eid then { e with available := e.available - q } else e) =
          s.events := by
      rw [List.map_congr_left h', List.map_id]
    unfold UpdateAvailableTickets
    simp only [hmap]
  · intro e he
    unfold UpdateAvailableTickets findEvent
    simp only
    rw [find?_map_id_preserved s.events _ Event.id
      (fun x => by by_cases hx : x.id = eid <;> simp [hx]) eid]
    unfold findEvent at he
    rw [he]
    simp only [Option.map_some', if_pos (findEvent_id he)]

/-- C10 witness: on the sample state the primitive reports success for an id
that matches no event and leaves the state unchanged, and a decrement of 15
on the event with `available = 10` drives `available` to `-5`, below the
lower bound. -/
theorem C10_witness :
    (UpdateAvailableTickets sampleState "nope" 15).1 = Except.ok () ∧
    (UpdateAvailableTickets sampleState "nope" 15).2 = sampleState ∧
    findEvent (UpdateAvailableTickets sampleState "e1" 15).2 "e1" =
      some ⟨"e1", 10, -5, 50, 100000, EventStatus.active⟩ := by
  refine ⟨(C10_update_available_unconditional sampleState "nope" 15).1,
    (C10_update_available_unconditional sampleState "nope" 15).2.1 (by decide), ?_⟩
  have h := (C10_update_available_unconditional sampleState "e1" 15).2.2 sampleEvent (by decide)
  exact h.trans (by decide)

/-- C7 counterexample: the claim says every request moving a `used` ticket to
any status fails, but `UpdateTicketStatus` on a `used` ticket with requested
status `cancelled` succeeds (only the `cancelled`-ticket guard and the
mark-`used` guard exist in the code). -/
theorem C7_counterexample :
    (UpdateTicketStatus usedTicketState "t7" TicketStatus.cancelled).1 =
      Except.ok ⟨"t7", "u1", "e1", 1, 50, TicketStatus.cancelled, 0⟩ := by decide

/-- C7 (amended): `UpdateTicketStatus` fails with the not-found error when the
ticket is absent, rejects any request on a `cancelled` ticket, rejects marking
a non-`active` ticket `used`, and leaves the state unchanged in each failure;
every other request — including `used → cancelled` and `expired → cancelled` —
succeeds and saves the requested status. -/
theorem C7_amended_transitions (s : DBState) (tid : String) (st : TicketStatus) :
    (findTicket s tid = none →
      UpdateTicketStatus s tid st = (Except.error "record not found", s)) ∧
    (∀ t, findTicket s tid = some t → t.status = TicketStatus.cancelled →
      UpdateTicketStatus s tid st = (Except.error "cannot update cancelled ticket", s)) ∧
    (∀ t, findTicket s tid = some t → t.status ≠ TicketStatus.cancelled →
      st = TicketStatus.used → t.status ≠ TicketStatus.active →
      UpdateTicketStatus s tid st = (Except.error "can only mark active tickets as used", s)) ∧
    (∀ t, findTicket s tid = some t → t.status ≠ TicketStatus.cancelled →
      (st = TicketStatus.used → t.status = TicketStatus.active) →
      UpdateTicketStatus s tid st =
        (Except.ok { t with status := st },
         { s with tickets := s.tickets.map (fun x =>
             if x.id = tid then { t with status := st } else x) })) :=
  updateTicketStatus_cases s tid st

/-- C7 witness: a `used` request on a `cancelled` ticket is rejected with the
state unchanged, and a `cancelled` request on an `expired` ticket succeeds. -/
theorem C7_witness :
    UpdateTicketStatus cancelledTicketState "t8" TicketStatus.used =
      (Except.error "cannot update cancelled ticket", cancelledTicketState) ∧
    UpdateTicketStatus expiredTicketState "t9" TicketStatus.cancelled =
      (Except.ok ⟨"t9", "u1", "e1", 3, 150, TicketStatus.cancelled, 0⟩,
       ⟨[sampleUser], [sampleEvent], [⟨"t9", "u1", "e1", 3, 150, TicketStatus.cancelled, 0⟩]⟩) := by
  constructor
  · exact (C7_amended_transitions cancelledTicketState "t8" TicketStatus.used).2.1
      cancelledTicket (by decide) (by decide)
  · have h := (C7_amended_transitions expiredTicketState "t9" TicketStatus.cancelled).2.2.2
      expiredTicket (by decide) (by decide) (by intro h; cases h)
    exact h.trans (by decide)

/-- C8: the precondition checks of `CancelTicket` fire in the claimed order
with the claimed error classes — absent ticket (not found), foreign owner
(checked before any status test, so it fires regardless of the ticket's
status), non-`active` status (so cancelling an already-cancelled ticket is an
explicit rejection), and the two-hour cutoff — and every one of these
failures leaves the ticket ledger and every event's `available` unchanged. -/
theorem C8_cancel_preconditions (now : Int) (s : DBState) (tid uid : String) :
    (findTicket s tid = none →
      CancelTicket now s tid uid = (Except.error "record not found", s)) ∧
    (∀ t, findTicket s tid = some t → t.userID ≠ uid →
      CancelTicket now s tid uid = (Except.error "you can only cancel your own tickets", s)) ∧
    (∀ t, findTicket s tid = some t → t.userID = uid → t.status ≠ TicketStatus.active →
      CancelTicket now s tid uid = (Except.error "ticket cannot be cancelled", s)) ∧
    (∀ t e, findTicket s tid = some t → t.userID = uid → t.status = TicketStatus.active →
      findEvent s t.eventID = some e → e.eventDate < now + 2 * hour →
      CancelTicket now s tid uid =
        (Except.error "cannot cancel tickets within 2 hours of event start", s)) :=
  cancelTicket_reject_cases now s tid uid

/-- C8 witness: each rejection branch observed on a concrete state — missing
ticket, foreign caller on a `used` ticket (ownership beats status), an
already-`cancelled` ticket of its owner, and an owner's `active` ticket one
hour before the event. -/
theorem C8_witness :
    CancelTicket 0 sampleState "zz" "u1" = (Except.error "record not found", sampleState) ∧
    CancelTicket 0 usedTicketState "t7" "u2" =
      (Except.error "you can only cancel your own tickets", usedTicketState) ∧
    CancelTicket 0 cancelledTicketState "t8" "u1" =
      (Except.error "ticket cannot be cancelled", cancelledTicketState) ∧
    CancelTicket 99000 activeTicketState "t4" "u1" =
      (Except.error "cannot cancel tickets within 2 hours of event start", activeTicketState) := by
  refine ⟨(C8_cancel_preconditions 0 sampleState "zz" "u1").1 (by decide),
    (C8_cancel_preconditions 0 usedTicketState "t7" "u2").2.1 usedTicket (by decide) (by decide),
    (C8_cancel_preconditions 0 cancelledTicketState "t8" "u1").2.2.1 cancelledTicket
      (by decide) (by decide) (by decide),
    (C8_cancel_preconditions 99000 activeTicketState "t4" "u1").2.2.2 activeTicket sampleEvent
      (by decide) (by decide) (by decide) (by decide) (by decide)⟩

/-- C1 counterexample: the claim includes `UpdateTicketStatus` among the
operations preserving `available + Σ(active/used quantities) = capacity`, but
cancelling a ticket through the status-update path never touches
`available`: on a sold-out event the invariant holds before and fails after
the successful `active → cancelled` status update. -/
theorem C1_counterexample :
    capacityInvariant soldOutState ∧
    (UpdateTicketStatus soldOutState "t2" TicketStatus.cancelled).1 =
      Except.ok ⟨"t2", "u1", "e2", 1, 50, TicketStatus.cancelled, 0⟩ ∧
    ¬ capacityInvariant (UpdateTicketStatus soldOutState "t2" TicketStatus.cancelled).2 :=
  ⟨by decide, by decide, by decide⟩

/-- C1 (amended): for states with unique ticket ids (the primary key),
`BuyTicket` and `CancelTicket` preserve the capacity-conservation invariant
on every path, and `UpdateTicketStatus` preserves it when the requested
status is `used`; a successful status update to `cancelled` (possible from
`active`) breaks it, as the counterexample shows. -/
theorem C1_amended_preservation :
    (∀ now newID s uid req, capacityInvariant s →
      capacityInvariant (BuyTicket now newID s uid req).2) ∧
    (∀ now s tid uid, ticketIDsNodup s → capacityInvariant s →
      capacityInvariant (CancelTicket now s tid uid).2) ∧
    (∀ s tid, ticketIDsNodup s → capacityInvariant s →
      capacityInvariant (UpdateTicketStatus s tid TicketStatus.used).2) :=
  ⟨fun now newID s uid req hinv => buy_preserves_invariant now newID s uid req hinv,
   fun now s tid uid hnd hinv => cancel_preserves_invariant now s tid uid hnd hinv,
   fun s tid hnd hinv => update_used_preserves_invariant s tid hnd hinv⟩

/-- C1 witness: the invariant survives a concrete purchase, a concrete
cancellation, and a concrete `active → used` status update. -/
theorem C1_witness :
    capacityInvariant (BuyTicket 0 "t1" sampleState "u1" ⟨"e1", 3⟩).2 ∧
    capacityInvariant (CancelTicket 0 soldOutState "t2" "u1").2 ∧
    capacityInvariant (UpdateTicketStatus soldOutState "t2" TicketStatus.used).2 :=
  ⟨C1_amended_preservation.1 0 "t1" sampleState "u1" ⟨"e1", 3⟩ (by decide),
   C1_amended_preservation.2.1 0 soldOutState "t2" "u1" (by decide) (by decide),
   C1_amended_preservation.2.2 soldOutState "t2" (by decide) (by decide)⟩

/-- C5: whenever the transactional purchase succeeds, the created ticket has
status `active`, the requested quantity, `purchaseDate = now` and
`totalPrice = event.price * quantity` computed from the locked snapshot `e`,
and the event's `available` decreases by exactly the quantity. -/
theorem C5_purchase_effect (now : Int) (newID : String) (s : DBState) (uid : String)
    (req : BuyTicketRequest) (u : User) (e : Event)
    (hu : findUser s uid = some u) (hua : u.isActive = true)
    (he : findEvent s req.eventID = some e) (hea : e.IsAvailable = true)
    (hq : req.quantity ≤ e.available) (hd : now + hour ≤ e.eventDate)
    (hfresh : findTicket s newID = none) :
    (BuyTicket now newID s uid req).1 =
      Except.ok { id := newID, userID := uid, eventID := req.eventID,
                  quantity := req.quantity,
                  totalPrice := e.price * (req.quantity : Rat),
                  status := TicketStatus.active, purchaseDate := now } ∧
    findEvent (BuyTicket now newID s uid req).2 req.eventID =
      some { e with available := e.available - req.quantity } := by
  have h := buyTicket_ok_eq now newID s uid req u e hu hua he hea hq hd hfresh
  have heid := findEvent_id he
  refine ⟨by rw [h], ?_⟩
  simp only [h]
  rw [findEvent_map_f s.users s.events _ _
    (fun x => by by_cases hx : x.id = req.eventID <;> simp [hx]) req.eventID]
  unfold findEvent at he
  rw [he, Option.map_some', if_pos heid]

/-- C3: for an active user and an active event more than an hour away with
`available = A > 0`, buying exactly `A` units succeeds and leaves
`available = 0`, while buying `A + 1` units fails with the
insufficient-capacity error and returns the state unchanged. -/
theorem C3_boundary (now : Int) (newID : String) (s : DBState) (uid eid : String)
    (u : User) (e : Event)
    (hu : findUser s uid = some u) (hua : u.isActive = true)
    (he : findEvent s eid = some e) (hst : e.status = EventStatus.active)
    (hpos : 0 < e.available) (hd : now + hour ≤ e.eventDate)
    (hfresh : findTicket s newID = none) :
    (BuyTicket now newID s uid ⟨eid, e.available⟩).1 =
      Except.ok { id := newID, userID := uid, eventID := eid,
                  quantity := e.available,
                  totalPrice := e.price * (e.available : Rat),
                  status := TicketStatus.active, purchaseDate := now } ∧
    findEvent (BuyTicket now newID s uid ⟨eid, e.available⟩).2 eid =
      some { e with available := 0 } ∧
    BuyTicket now newID s uid ⟨eid, e.available + 1⟩ =
      (Except.error "insufficient tickets available", s) := by
  have hea : e.IsAvailable = true := by
    simp [Event.IsAvailable, hpos, hst]
  have h := C5_purchase_effect now newID s uid ⟨eid, e.available⟩ u e hu hua he hea
    (le_refl _) hd hfresh
  refine ⟨h.1, ?_, ?_⟩
  · rw [h.2]
    simp
  · unfold BuyTicket
    rw [hu, he]
    simp only [hua, hea, Bool.true_eq_false, if_false]
    rw [if_pos (show e.available < (⟨eid, e.available + 1⟩ : BuyTicketRequest).quantity by
      show e.available < e.available + 1
      omega)]

/-- C4: a successful purchase of quantity `q` followed by the owner's
cancellation before the two-hour cutoff succeeds and restores the event row
exactly — in particular `available` returns to its pre-purchase value. -/
theorem C4_round_trip (now now2 : Int) (newID : String) (s : DBState) (uid : String)
    (req : BuyTicketRequest) (u : User) (e : Event)
    (hu : findUser s uid = some u) (hua : u.isActive = true)
    (he : findEvent s req.eventID = some e) (hea : e.IsAvailable = true)
    (hq : req.quantity ≤ e.available) (hd : now + hour ≤ e.eventDate)
    (hfresh : findTicket s newID = none)
    (hd2 : now2 + 2 * hour ≤ e.eventDate) :
    (CancelTicket now2 (BuyTicket now newID s uid req).2 newID uid).1 =
      Except.ok { id := newID, userID := uid, eventID := req.eventID,
                  quantity := req.quantity,
                  totalPrice := e.price * (req.quantity : Rat),
                  status := TicketStatus.cancelled, purchaseDate := now } ∧
    findEvent (CancelTicket now2 (BuyTicket now newID s uid req).2 newID uid).2 req.eventID =
      some e := by
  have hbuy := buyTicket_ok_eq now newID s uid req u e hu hua he hea hq hd hfresh
  have heid := findEvent_id he
  have heu : s.events.find? (fun x => decide (x.id = req.eventID)) = some e := he
  have hT : findTicket (BuyTicket now newID s uid req).2 newID =
      some { id := newID, userID := uid, eventID := req.eventID,
             quantity := req.quantity,
             totalPrice := e.price * (req.quantity : Rat),
             status := TicketStatus.active, purchaseDate := now } := by
    simp only [hbuy]
    exact find?_append_fresh s.tickets _ newID hfresh rfl
  have hE1 : findEvent (BuyTicket now newID s uid req).2 req.eventID =
      some { e with available := e.available - req.quantity } := by
    simp only [hbuy]
    rw [findEvent_map_f s.users s.events _ _
      (fun x => by by_cases hx : x.id = req.eventID <;> simp [hx]) req.eventID]
    rw [heu, Option.map_some', if_pos heid]
  have hcan := cancelTicket_ok_eq now2 (BuyTicket now newID s uid req).2 newID uid
    { id := newID, userID := uid, eventID := req.eventID,
      quantity := req.quantity,
      totalPrice := e.price * (req.quantity : Rat),
      status := TicketStatus.active, purchaseDate := now }
    { e with available := e.available - req.quantity }
    hT rfl rfl hE1 hd2
  have hfID : ∀ x : Event,
      ((fun e' => if e'.id = req.eventID then
          { e' with available := e'.available - req.quantity } else e') x).id = x.id := by
    intro x
    by_cases hx : x.id = req.eventID <;> simp [hx]
  have hgID : ∀ x : Event,
      ((fun e' => if e'.id = req.eventID then
          { e' with available := e'.available + req.quantity } else e') x).id = x.id := by
    intro x
    by_cases hx : x.id = req.eventID <;> simp [hx]
  refine ⟨by rw [hcan], ?_⟩
  simp only [hcan]
  simp only [hbuy]
  rw [findEvent_map_f s.users
    (s.events.map (fun e' =>
      if e'.id = req.eventID then { e' with available := e'.available - req.quantity } else e'))
    _ _ hgID req.eventID]
  rw [find?_map_id_preserved s.events _ Event.id hfID req.eventID]
  rw [heu, Option.map_some', Option.map_some']
  have harith : e.available - req.quantity + req.quantity = e.available := by ring
  simp [heid, harith]
  rw [← heid]

/-- C2 (amended): the `FOR UPDATE` transactional variant serializes the
purchases of one event, and any serial batch cannot oversell: with
`available = A ≥ 0` and every requested quantity positive, the quantities of
the successful purchases sum to `T` with `0 ≤ T ≤ A`, and the final
`available` is exactly `A - T ≥ 0`.  (The unlocked variant violates this
under concurrency — see the counterexample.) -/
theorem C2_amended_serial_no_oversell (now : Int) (s : DBState) (eid : String) (e : Event)
    (calls : List (String × String × BuyTicketRequest))
    (he : findEvent s eid = some e) (hA : 0 ≤ e.available)
    (hcalls : ∀ c ∈ calls, c.2.2.eventID = eid ∧ 1 ≤ c.2.2.quantity) :
    0 ≤ (runBuys now s calls).2 ∧
    (runBuys now s calls).2 ≤ e.available ∧
    0 ≤ e.available - (runBuys now s calls).2 ∧
    findEvent (runBuys now s calls).1 eid =
      some { e with available := e.available - (runBuys now s calls).2 } := by
  induction calls generalizing s e with
  | nil =>
    simp only [runBuys]
    refine ⟨le_refl 0, hA, by omega, ?_⟩
    rw [show e.available - 0 = e.available from by ring]
    exact he
  | cons c rest ih =>
    obtain ⟨hceid, hcq⟩ := hcalls c (List.mem_cons_self c rest)
    have hrest : ∀ x ∈ rest, x.2.2.eventID = eid ∧ 1 ≤ x.2.2.quantity :=
      fun x hx => hcalls x (List.mem_cons_of_mem c hx)
    have hstep := buyTicket_avail_step now c.1 s c.2.1 c.2.2 e (by rw [hceid]; exact he)
    simp only [runBuys]
    rcases hres : (BuyTicket now c.1 s c.2.1 c.2.2).1 with err | t
    · have hframe := hstep.1 err hres
      simp only [hres, hframe]
      obtain ⟨h1, h2, h3, h4⟩ := ih s e he hA hrest
      refine ⟨by omega, by omega, by omega, ?_⟩
      rw [show (0 : Int) + (runBuys now s rest).2 = (runBuys now s rest).2 from by ring]
      exact h4
    · obtain ⟨hq, hfe⟩ := hstep.2 t hres
      rw [hceid] at hfe
      have hA1 : (0 : Int) ≤ e.available - c.2.2.quantity := by omega
      obtain ⟨h1, h2, h3, h4⟩ :=
        ih (BuyTicket now c.1 s c.2.1 c.2.2).2
          { e with available := e.available - c.2.2.quantity } hfe hA1 hrest
      have h2' : (runBuys now (BuyTicket now c.1 s c.2.1 c.2.2).2 rest).2 ≤
          e.available - c.2.2.quantity := h2
      simp only [hres]
      refine ⟨by omega, by omega, by omega, ?_⟩
      rw [show e.available - (c.2.2.quantity +
          (runBuys now (BuyTicket now c.1 s c.2.1 c.2.2).2 rest).2) =
          e.available - c.2.2.quantity -
          (runBuys now (BuyTicket now c.1 s c.2.1 c.2.2).2 rest).2 from by ring]
      exact h4

/-- C6 (amended): the transactional variants are all-or-nothing — every error
outcome of `BuyTicket` or `CancelTicket` returns the caller's state
unchanged.  The unlocked variant guarantees this only while its compensation
calls succeed: when the capacity update fails and the compensating delete
also fails, the created ticket survives without its paired decrement and the
delete's error is discarded (see the counterexample). -/
theorem C6_amended_atomicity :
    (∀ now newID s uid req err, (BuyTicket now newID s uid req).1 = Except.error err →
      (BuyTicket now newID s uid req).2 = s) ∧
    (∀ now s tid uid err, (CancelTicket now s tid uid).1 = Except.error err →
      (CancelTicket now s tid uid).2 = s) :=
  ⟨fun now newID s uid req err h => buyTicket_error_frame now newID s uid req err h,
   fun now s tid uid err h => cancelTicket_error_frame now s tid uid err h⟩

section
attribute [local semireducible] Rat.mul

/-- C2 counterexample: the unlocked variant is not linearizable and can
oversell.  Two purchases of 6 units each validate against the same
`available = 10` snapshot before either decrement commits (no lock is held
between the read and the write); both succeed, the successful quantities sum
to `12 > 10`, and the final `available` is `-2 < 0`. -/
theorem C2_counterexample :
    (BuyTicketUnlocked noFaults 0 "t1" sampleState sampleState "u1" ⟨"e1", 6⟩).1 =
      Except.ok ⟨"t1", "u1", "e1", 6, 300, TicketStatus.active, 0⟩ ∧
    (BuyTicketUnlocked noFaults 0 "t2" sampleState
        (BuyTicketUnlocked noFaults 0 "t1" sampleState sampleState "u1" ⟨"e1", 6⟩).2
        "u1" ⟨"e1", 6⟩).1 =
      Except.ok ⟨"t2", "u1", "e1", 6, 300, TicketStatus.active, 0⟩ ∧
    findEvent (BuyTicketUnlocked noFaults 0 "t2" sampleState
        (BuyTicketUnlocked noFaults 0 "t1" sampleState sampleState "u1" ⟨"e1", 6⟩).2
        "u1" ⟨"e1", 6⟩).2 "e1" =
      some ⟨"e1", 10, -2, 50, 100000, EventStatus.active⟩ :=
  ⟨by decide, by decide, by decide⟩

/-- C2 witness: the serial no-oversell theorem applied to a batch of two
purchases of 6 units each against `available = 10`. -/
theorem C2_witness :
    0 ≤ (runBuys 0 sampleState [("t1", "u1", ⟨"e1", 6⟩), ("t2", "u1", ⟨"e1", 6⟩)]).2 ∧
    (runBuys 0 sampleState [("t1", "u1", ⟨"e1", 6⟩), ("t2", "u1", ⟨"e1", 6⟩)]).2 ≤ 10 ∧
    0 ≤ 10 - (runBuys 0 sampleState [("t1", "u1", ⟨"e1", 6⟩), ("t2", "u1", ⟨"e1", 6⟩)]).2 ∧
    findEvent (runBuys 0 sampleState [("t1", "u1", ⟨"e1", 6⟩), ("t2", "u1", ⟨"e1", 6⟩)]).1 "e1" =
      some ⟨"e1", 10,
            10 - (runBuys 0 sampleState [("t1", "u1", ⟨"e1", 6⟩), ("t2", "u1", ⟨"e1", 6⟩)]).2,
            50, 100000, EventStatus.active⟩ :=
  C2_amended_serial_no_oversell 0 sampleState "e1" sampleEvent
    [("t1", "u1", ⟨"e1", 6⟩), ("t2", "u1", ⟨"e1", 6⟩)] (by decide) (by decide) (by decide)

/-- C3 witness: buying all 10 available units succeeds and zeroes
`available`; buying 11 fails with the insufficient-capacity error and
returns the state untouched. -/
theorem C3_witness :
    (BuyTicket 0 "t1" sampleState "u1" ⟨"e1", 10⟩).1 =
      Except.ok ⟨"t1", "u1", "e1", 10, 500, TicketStatus.active, 0⟩ ∧
    findEvent (BuyTicket 0 "t1" sampleState "u1" ⟨"e1", 10⟩).2 "e1" =
      some ⟨"e1", 10, 0, 50, 100000, EventStatus.active⟩ ∧
    BuyTicket 0 "t1" sampleState "u1" ⟨"e1", 11⟩ =
      (Except.error "insufficient tickets available", sampleState) := by
  have h := C3_boundary 0 "t1" sampleState "u1" "e1" sampleUser sampleEvent
    (by decide) (by decide) (by decide) (by decide) (by decide) (by decide) (by decide)
  exact ⟨h.1.trans (by decide), h.2.1.trans (by decide), h.2.2⟩

/-- C4 witness: buying 3 units (available drops to 7) and cancelling the
ticket well before the cutoff restores the sample event row exactly, with
`available = 10` again. -/
theorem C4_witness :
    (CancelTicket 0 (BuyTicket 0 "t1" sampleState "u1" ⟨"e1", 3⟩).2 "t1" "u1").1 =
      Except.ok ⟨"t1", "u1", "e1", 3, 150, TicketStatus.cancelled, 0⟩ ∧
    findEvent (CancelTicket 0 (BuyTicket 0 "t1" sampleState "u1" ⟨"e1", 3⟩).2 "t1" "u1").2 "e1" =
      some sampleEvent := by
  have h := C4_round_trip 0 0 "t1" sampleState "u1" ⟨"e1", 3⟩ sampleUser sampleEvent
    (by decide) (by decide) (by decide) (by decide) (by decide) (by decide) (by decide)
    (by decide)
  exact ⟨h.1.trans (by decide), h.2⟩

/-- C5 witness: buying quantity 3 at price 50 on `available = 10` creates an
`active` ticket with `totalPrice = 150` and leaves `available = 7`. -/
theorem C5_witness :
    (BuyTicket 0 "t1" sampleState "u1" ⟨"e1", 3⟩).1 =
      Except.ok ⟨"t1", "u1", "e1", 3, 150, TicketStatus.active, 0⟩ ∧
    findEvent (BuyTicket 0 "t1" sampleState "u1" ⟨"e1", 3⟩).2 "e1" =
      some ⟨"e1", 10, 7, 50, 100000, EventStatus.active⟩ := by
  have h := C5_purchase_effect 0 "t1" sampleState "u1" ⟨"e1", 3⟩ sampleUser sampleEvent
    (by decide) (by decide) (by decide) (by decide) (by decide) (by decide) (by decide)
  exact ⟨h.1.trans (by decide), h.2.trans (by decide)⟩

/-- C6 counterexample: in the unlocked variant, when the capacity update
fails and the compensating `ticketRepo.Delete` also fails (its error is
discarded by the code), the caller receives an error yet the created ticket
remains in the ledger while `available` was never decremented. -/
theorem C6_counterexample :
    (BuyTicketUnlocked ⟨false, true, true⟩ 0 "t1" sampleState sampleState "u1" ⟨"e1", 6⟩).1 =
      Except.error "update available failed" ∧
    (BuyTicketUnlocked ⟨false, true, true⟩ 0 "t1" sampleState sampleState "u1" ⟨"e1", 6⟩).2 =
      ⟨[sampleUser], [sampleEvent], [⟨"t1", "u1", "e1", 6, 300, TicketStatus.active, 0⟩]⟩ :=
  ⟨by decide, by decide⟩

/-- C6 witness: two concrete failing calls of the transactional variants
(inactive buyer; missing ticket) leave the state exactly as it was. -/
theorem C6_witness :
    (BuyTicket 0 "t1" inactiveState "u9" ⟨"e1", 1⟩).2 = inactiveState ∧
    (CancelTicket 0 inactiveState "zz" "u9").2 = inactiveState :=
  ⟨C6_amended_atomicity.1 0 "t1" inactiveState "u9" ⟨"e1", 1⟩
      "user account is not active" (by decide),
   C6_amended_atomicity.2 0 inactiveState "zz" "u9" "record not found" (by decide)⟩

end

end Ticketing
